import Mathlib

/-!
Verification development for the x402-sentinel marketplace service
(watcher lifecycle, idempotent creation, polling, billing, SLA/refunds).

The JavaScript sources are shallowly embedded as executable Lean
definitions:

* JavaScript numbers (used only for money and counters here) are
  modelled exactly over `Rat`;
* ISO-8601 timestamps and the `Date` calendar arithmetic
  (`setDate`, `setMonth`, `setHours` and `getTime` differences) are
  modelled by `JsDate`, a proleptic-Gregorian UTC calendar with
  millisecond-of-day resolution; comparisons of ISO strings in the
  source are order-isomorphic to comparisons of `JsDate.epochMs`;
* `Math.random`-based id generation is determinised by a fresh-id
  counter threaded through the store;
* the pluggable executors and the remote webhook endpoint are external
  collaborators and enter as oracle parameters;
* sha-256 is an external primitive and enters as a `String → String`
  parameter; every hash statement below is proved for all such
  functions (collisions are exhibited on the pre-hash serialization).
-/

/- The closed scenario theorems below evaluate the model by kernel
reduction; the arithmetic of `Rat` is hidden behind `irreducible`
markers in the library, which blocks that evaluation, so the markers
are lowered to the ordinary transparency here. -/
set_option allowUnsafeReducibility true in
attribute [semireducible] Rat.mul Rat.add Rat.sub Rat.inv Rat.ofScientific

namespace X402

/-! ## JSON values and JSON.stringify with an array replacer -/

mutual
/-- A JSON value.  Object members are kept in insertion order;
JavaScript objects have unique keys, which all inputs below respect.
Numbers are modelled over `Rat`. -/
inductive Json where
  | null
  | bool (b : Bool)
  | num (q : Rat)
  | str (s : String)
  | arr (elems : JsonList)
  | obj (members : JsonMembers)
deriving DecidableEq

/-- A list of JSON array elements. -/
inductive JsonList where
  | nil
  | cons (hd : Json) (tl : JsonList)
deriving DecidableEq

/-- An association list of JSON object members. -/
inductive JsonMembers where
  | nil
  | cons (k : String) (v : Json) (tl : JsonMembers)
deriving DecidableEq
end

/-- Quote a JSON string.  Escapes the quote and backslash characters;
control-character escapes are elided (no input below contains them). -/
def quoteStr (s : String) : String :=
  "\"" ++ String.join (s.toList.map (fun c =>
    if c = '"' ∨ c = '\\' then String.singleton '\\' ++ String.singleton c
    else String.singleton c)) ++ "\""

/-- Rendering of a JSON number.  JavaScript decimal float formatting is
abstracted by the canonical `Rat` representation; all that matters for
the hashing statements is that the rendering is a function of the
value. -/
def numRepr (q : Rat) : String :=
  toString q.num ++ (if q.den = 1 then "" else "/" ++ toString q.den)

/-- First serialized member piece carrying key `k`. -/
def firstPiece (k : String) : List (String × String) → Option String
  | [] => none
  | (k2, piece) :: rest => if k2 = k then some piece else firstPiece k rest

/-- The member pieces selected and ordered by the replacer key list
`K` (ECMA-262 SerializeJSONObject with a PropertyList: keys are
enumerated in PropertyList order, and keys absent from it are
skipped). -/
def selectByK (K : List String) (pieces : List (String × String)) :
    List String :=
  K.filterMap (fun k => firstPiece k pieces)

mutual
/-- `JSON.stringify(v, K)` where `K` is an array replacer
(ECMA-262 SerializeJSONObject with PropertyList `K`): at EVERY object
nesting level only the keys listed in `K` are serialized, in the order
of `K`; array elements are serialized unconditionally.  (Members are
serialized in stored order and then selected/ordered by `K`; for the
unique-key objects JavaScript produces this equals serializing the
`K`-enumeration directly.) -/
def stringifyWith (K : List String) : Json → String
  | .null => "null"
  | .bool b => cond b "true" "false"
  | .num q => numRepr q
  | .str s => quoteStr s
  | .arr xs => "[" ++ String.intercalate "," (stringifyElems K xs) ++ "]"
  | .obj kvs =>
      "\x7b" ++
        String.intercalate "," (selectByK K (stringifyMembers K kvs)) ++
        "\x7d"

/-- Serialized forms of the array elements, in order. -/
def stringifyElems (K : List String) : JsonList → List String
  | .nil => []
  | .cons x xs => stringifyWith K x :: stringifyElems K xs

/-- Each member as `(key, quoted-key : serialized-value)`. -/
def stringifyMembers (K : List String) : JsonMembers →
    List (String × String)
  | .nil => []
  | .cons k v rest =>
    (k, quoteStr k ++ ":" ++ stringifyWith K v) :: stringifyMembers K rest
end

/-! ## The JavaScript Date calendar (UTC, proleptic Gregorian)

Years are natural numbers (year 0 is the model epoch); every date the
claims touch lies far after it, so differences and order agree with the
JavaScript epoch up to a constant shift. -/

def isLeapYear (y : Nat) : Bool :=
  (y % 4 = 0 && y % 100 ≠ 0) || y % 400 = 0

/-- Days in month `m` (0-indexed as in JavaScript: January is 0) of
year `y`. -/
def daysInMonth (y : Nat) (m : Nat) : Nat :=
  if m = 1 then (if isLeapYear y then 29 else 28)
  else if m = 3 ∨ m = 5 ∨ m = 8 ∨ m = 10 then 30
  else 31

theorem daysInMonth_ge_28 (y m : Nat) : 28 ≤ daysInMonth y m := by
  unfold daysInMonth
  split
  · split <;> omega
  · split <;> omega

/-- A timestamp: proleptic-Gregorian calendar date plus milliseconds
within the day.  `month` is 0-indexed; a date is well-formed when
`month ≤ 11` and `1 ≤ day ≤ daysInMonth year month`. -/
structure JsDate where
  year : Nat
  month : Nat
  day : Nat
  ms : Nat
deriving DecidableEq

/-- Normalise a month count into (year, month in 0..11), as JavaScript
`setMonth` does for arguments past December. -/
def normMonthYear (y m : Nat) : Nat × Nat := (y + m / 12, m % 12)

/-- Normalise an overflowing day-of-month by rolling into following
months, as JavaScript `setDate`/`setMonth` do.  Structural fuel; one
unit per month rolled, so `fuel ≥ d` always suffices (each roll removes
at least 28 days). -/
def normDayGo : Nat → Nat → Nat → Nat → Nat × Nat × Nat
  | 0, y, m, d => (y, m, d)
  | fuel + 1, y, m, d =>
    if d ≤ daysInMonth y m then (y, m, d)
    else
      normDayGo fuel (normMonthYear y (m + 1)).1 (normMonthYear y (m + 1)).2
        (d - daysInMonth y m)

def normDay (y m d : Nat) : Nat × Nat × Nat := normDayGo d y m d

/-- JavaScript `date.setDate(date.getDate() + k)` (also the effect of
adding `k * 86400000` to `getTime`). -/
def addDays (dt : JsDate) (k : Nat) : JsDate :=
  let r := normDay dt.year dt.month (dt.day + k)
  ⟨r.1, r.2.1, r.2.2, dt.ms⟩

/-- JavaScript `date.setMonth(date.getMonth() + 1)`: bump the month and
roll an overflowing day-of-month forward (e.g. Jan 31 becomes Mar 3). -/
def addOneMonth (dt : JsDate) : JsDate :=
  let r := normDay (normMonthYear dt.year (dt.month + 1)).1
    (normMonthYear dt.year (dt.month + 1)).2 dt.day
  ⟨r.1, r.2.1, r.2.2, dt.ms⟩

/-- JavaScript `date.setHours(date.getHours() + h)` in UTC: plain
millisecond addition with day rollover. -/
def addHours (dt : JsDate) (h : Nat) : JsDate :=
  let total := dt.ms + h * 3600000
  addDays ⟨dt.year, dt.month, dt.day, total % 86400000⟩ (total / 86400000)

/-- Days from the start of year `y` to the start of its month `m`. -/
def daysBeforeMonth (y : Nat) : Nat → Nat
  | 0 => 0
  | m + 1 => daysBeforeMonth y m + daysInMonth y m

def daysInYear (y : Nat) : Nat := daysBeforeMonth y 12

/-- Days from the model epoch to the start of year `y`. -/
def daysBeforeYear : Nat → Nat
  | 0 => 0
  | y + 1 => daysBeforeYear y + daysInYear y

/-- Day number of a (possibly day-overflowing) calendar triple. -/
def dayNumber (y m d : Nat) : Nat :=
  daysBeforeYear y + daysBeforeMonth y m + (d - 1)

def JsDate.dayNum (dt : JsDate) : Nat := dayNumber dt.year dt.month dt.day

/-- Milliseconds since the model epoch; differences and order coincide
with JavaScript `getTime` differences and ISO-string comparisons. -/
def JsDate.epochMs (dt : JsDate) : Nat := dt.dayNum * 86400000 + dt.ms

/-- Rolling an overflowing day into the next month preserves the day
number. -/
theorem dayNumber_roll (y m d : Nat) (hm : m ≤ 11)
    (hd : daysInMonth y m < d) :
    dayNumber (normMonthYear y (m + 1)).1 (normMonthYear y (m + 1)).2
      (d - daysInMonth y m) = dayNumber y m d := by
  by_cases hm11 : m = 11
  · subst hm11
    have hnorm : normMonthYear y 12 = (y + 1, 0) := by
      simp [normMonthYear]
    rw [hnorm]
    have hy1 : daysBeforeYear (y + 1) = daysBeforeYear y + daysInYear y := rfl
    have hdy : daysInYear y = daysBeforeMonth y 11 + daysInMonth y 11 := rfl
    simp only [dayNumber, hy1, hdy, daysBeforeMonth]
    omega
  · have hlt : m + 1 < 12 := by omega
    have hnorm : normMonthYear y (m + 1) = (y, m + 1) := by
      simp [normMonthYear, Nat.div_eq_of_lt hlt, Nat.mod_eq_of_lt hlt]
    rw [hnorm]
    have hsm : daysBeforeMonth y (m + 1) =
        daysBeforeMonth y m + daysInMonth y m := rfl
    simp only [dayNumber, hsm]
    omega

/-- Day-roll normalisation preserves the day number and lands on a
well-formed date. -/
theorem normDayGo_spec (fuel : Nat) :
    ∀ y m d, 1 ≤ d → d ≤ fuel → m ≤ 11 →
    dayNumber (normDayGo fuel y m d).1 (normDayGo fuel y m d).2.1
        (normDayGo fuel y m d).2.2 = dayNumber y m d ∧
    (normDayGo fuel y m d).2.1 ≤ 11 ∧
    1 ≤ (normDayGo fuel y m d).2.2 ∧
    (normDayGo fuel y m d).2.2 ≤
      daysInMonth (normDayGo fuel y m d).1 (normDayGo fuel y m d).2.1 := by
  induction fuel with
  | zero => intro y m d h1 h2 _; omega
  | succ fuel ih =>
    intro y m d h1 h2 hm
    rw [normDayGo]
    by_cases hd : d ≤ daysInMonth y m
    · rw [if_pos hd]
      exact ⟨rfl, hm, h1, hd⟩
    · rw [if_neg hd]
      have hdim := daysInMonth_ge_28 y m
      have hm2 : (normMonthYear y (m + 1)).2 ≤ 11 := by
        have : (m + 1) % 12 < 12 := Nat.mod_lt _ (by norm_num)
        simp only [normMonthYear]
        omega
      have hrec := ih (normMonthYear y (m + 1)).1 (normMonthYear y (m + 1)).2
        (d - daysInMonth y m) (by omega) (by omega) hm2
      exact ⟨hrec.1.trans (dayNumber_roll y m d hm (by omega)), hrec.2⟩

/-- A date is well-formed: month in range and day within the month. -/
def JsDate.Valid (dt : JsDate) : Prop :=
  dt.month ≤ 11 ∧ 1 ≤ dt.day ∧ dt.day ≤ daysInMonth dt.year dt.month

instance (dt : JsDate) : Decidable dt.Valid := by
  unfold JsDate.Valid
  infer_instance

/-- Adding `k` days advances the day number by exactly `k` and leaves
the time of day unchanged. -/
theorem addDays_dayNum (dt : JsDate) (k : Nat) (h : dt.Valid) :
    (addDays dt k).dayNum = dt.dayNum + k ∧ (addDays dt k).ms = dt.ms := by
  obtain ⟨hm, hd1, _⟩ := h
  have hs := normDayGo_spec (dt.day + k) dt.year dt.month (dt.day + k)
    (by omega) (by omega) hm
  refine ⟨?_, rfl⟩
  show dayNumber _ _ _ = _
  simp only [addDays, normDay]
  rw [hs.1]
  simp only [JsDate.dayNum, dayNumber]
  omega

/-- Normalisation is the identity on an in-range day. -/
theorem normDay_eq_self (y m d : Nat) (h1 : 1 ≤ d)
    (hfit : d ≤ daysInMonth y m) : normDay y m d = (y, m, d) := by
  unfold normDay
  cases d with
  | zero => omega
  | succ n =>
    rw [normDayGo]
    rw [if_pos hfit]

/-- Linear month index (year times 12 plus month). -/
def monthIndex (dt : JsDate) : Nat := dt.year * 12 + dt.month

/-- Bumping the month advances the month index by exactly one. -/
theorem normMonthYear_index (y m : Nat) (hm : m ≤ 11) :
    (normMonthYear y (m + 1)).1 * 12 + (normMonthYear y (m + 1)).2 =
      y * 12 + m + 1 := by
  by_cases hm11 : m = 11
  · subst hm11
    simp only [normMonthYear]
    norm_num
    omega
  · have hlt : m + 1 < 12 := by omega
    simp only [normMonthYear, Nat.div_eq_of_lt hlt, Nat.mod_eq_of_lt hlt]
    omega

/-- When the day-of-month fits in the following month, `setMonth(+1)`
advances the month index by one and keeps day and time of day. -/
theorem addOneMonth_no_overflow (dt : JsDate) (h : dt.Valid)
    (hfit : dt.day ≤ daysInMonth (normMonthYear dt.year (dt.month + 1)).1
      (normMonthYear dt.year (dt.month + 1)).2) :
    monthIndex (addOneMonth dt) = monthIndex dt + 1 ∧
    (addOneMonth dt).day = dt.day ∧ (addOneMonth dt).ms = dt.ms := by
  obtain ⟨hm, hd1, _⟩ := h
  have hnd := normDay_eq_self (normMonthYear dt.year (dt.month + 1)).1
    (normMonthYear dt.year (dt.month + 1)).2 dt.day hd1 hfit
  have hidx := normMonthYear_index dt.year dt.month hm
  constructor
  · show (addOneMonth dt).year * 12 + (addOneMonth dt).month = _
    simp only [addOneMonth, hnd]
    exact hidx
  · constructor
    · show (addOneMonth dt).day = dt.day
      simp only [addOneMonth, hnd]
    · rfl

/-! ## Data model (src/models.js, src/store.js)

Records keep the source field names.  Only fields that never influence
any modelled computation are elided (display names, descriptions,
category, website, config schemas, transaction hashes). -/

structure OperatorStats where
  watchersCreated : Nat
  totalTriggers : Nat
  totalEarned : Rat
  uptimePercent : Rat
deriving DecidableEq

structure Operator where
  id : String
  wallet : String
  status : String
  stats : OperatorStats
deriving DecidableEq

structure TypeStats where
  instances : Nat
  triggers : Nat
deriving DecidableEq

structure WatcherType where
  id : String
  operatorId : String
  price : Rat
  executorId : Option String
  status : String
  stats : TypeStats
deriving DecidableEq

structure CustomerStats where
  totalWatchersCreated : Nat
  totalSpent : Rat
deriving DecidableEq

structure Customer where
  id : String
  tier : String
  freeWatchersUsed : Nat
  createdAt : JsDate
  upgradedAt : Option JsDate
  stats : CustomerStats
deriving DecidableEq

structure RetryPolicy where
  maxRetries : Nat
  backoffMs : Nat
deriving DecidableEq

structure DowntimePeriod where
  startTime : JsDate
  endTime : Option JsDate
  durationMinutes : Option Rat
  reason : String
  resolved : Bool
deriving DecidableEq

structure SlaInfo where
  uptimePercent : Rat
  violationCount : Nat
  lastViolation : Option JsDate
  downtimePeriods : List DowntimePeriod
deriving DecidableEq

/-- The `lastCheckResult` field: executor data on success, an error
envelope on failure. -/
inductive CheckResultRecord where
  | data (d : Json)
  | errorMsg (msg : String)
deriving DecidableEq

structure BillingRecord where
  id : String
  billingDate : JsDate
  processedAt : JsDate
  amount : Rat
  status : String
  paymentId : Option String
  failureReason : Option String
deriving DecidableEq

structure Watcher where
  id : String
  typeId : String
  operatorId : String
  customerId : String
  config : Json
  webhook : String
  status : String
  createdAt : JsDate
  expiresAt : Option JsDate
  lastChecked : Option JsDate
  lastTriggered : Option JsDate
  triggerCount : Nat
  billingCycle : String
  nextBillingAt : Option JsDate
  billingHistory : List BillingRecord
  cancelledAt : Option JsDate
  cancellationReason : Option String
  pollingInterval : Nat
  ttl : Option Nat
  retryPolicy : RetryPolicy
  sla : SlaInfo
  lastCheckSuccess : Option Bool
  consecutiveFailures : Nat
  lastCheckResult : Option CheckResultRecord
deriving DecidableEq

structure Payment where
  id : String
  watcherId : String
  operatorId : String
  customerId : String
  amount : Rat
  operatorShare : Rat
  platformShare : Rat
  network : String
  type : Option String
  linkedViolationId : Option String
  createdAt : JsDate
deriving DecidableEq

structure Receipt where
  id : String
  watcherId : String
  typeId : String
  amount : Rat
  chain : String
  rail : String
  fulfillmentHash : String
  customerId : String
  operatorId : String
  paymentId : String
  timestamp : JsDate
deriving DecidableEq

structure SLAViolation where
  id : String
  watcherId : String
  operatorId : String
  customerId : String
  violationType : String
  threshold : Rat
  actualValue : Rat
  startTime : JsDate
  endTime : JsDate
  durationMinutes : Rat
  autoRefund : Bool
  refundAmount : Option Rat
  refundId : Option String
  createdAt : JsDate
  acknowledged : Bool
  resolution : Option String
deriving DecidableEq

/-- The whole persisted state: one collection per entity type, plus the
fresh-id counter that determinises `generateId`. -/
structure Store where
  operators : List Operator
  types : List WatcherType
  watchers : List Watcher
  payments : List Payment
  receipts : List Receipt
  customers : List Customer
  violations : List SLAViolation
  idCounter : Nat
deriving DecidableEq

/-! ## Constants (src/models.js) -/

def PLATFORM_FEE : Rat := 1 / 5
def OPERATOR_SHARE : Rat := 4 / 5
def POLLING_INTERVALS : List Nat := [5, 15, 30, 60]
/-- `TTL_OPTIONS.slice(0, -1)`: the non-null ttl choices, in hours. -/
def TTL_OPTIONS_HOURS : List Nat := [24, 72, 168]
def MAX_RETRIES_LIMIT : Nat := 5
def FREE_TIER_MAX_WATCHERS : Nat := 1
def FREE_TIER_POLLING_INTERVAL_MIN : Nat := 30
def SLA_CONSECUTIVE_FAILURE_LIMIT : Nat := 5
def SLA_DEFAULT_UPTIME_THRESHOLD : Rat := 99
def SLA_VIOLATION_REFUND_PERCENT : Rat := 1 / 2
/-- Fallback of `process.env.NETWORK`. -/
def DEFAULT_NETWORK : String := "eip155:8453"

/-! ## Store operations (src/store.js) -/

/-- `generateId`, determinised by the fresh-id counter. -/
def generateId (n : Nat) : String := "id" ++ toString n

/-- Draw a fresh id from the counter. -/
def freshId (s : Store) : String × Store :=
  (generateId s.idCounter, { s with idCounter := s.idCounter + 1 })

def getOperator (s : Store) (id : String) : Option Operator :=
  s.operators.find? (fun o => o.id = id)

def getWatcherType (s : Store) (id : String) : Option WatcherType :=
  s.types.find? (fun t => t.id = id)

def getWatcher (s : Store) (id : String) : Option Watcher :=
  s.watchers.find? (fun w => w.id = id)

def getCustomer (s : Store) (id : String) : Option Customer :=
  s.customers.find? (fun c => c.id = id)

/-- Replace the first list entry satisfying `p` by its image under `f`
(the `findIndex` + in-place assignment idiom used by every `updateX`
store function; no entry means no change). -/
def updateFirst (p : α → Bool) (f : α → α) : List α → List α
  | [] => []
  | x :: xs => if p x then f x :: xs else x :: updateFirst p f xs

/-- `updateWatcher(id, updates)`; each call site instantiates `f` with
exactly the object-spread patch from the source. -/
def updateWatcher (s : Store) (id : String) (f : Watcher → Watcher) :
    Store :=
  { s with watchers := updateFirst (fun w => w.id = id) f s.watchers }

def updateCustomerIn (s : Store) (id : String) (f : Customer → Customer) :
    Store :=
  { s with customers := updateFirst (fun c => c.id = id) f s.customers }

/-- `incrementOperatorStats(operatorId, field, amount)`. -/
def incrementOperatorStat (s : Store) (opId : String)
    (f : OperatorStats → OperatorStats) : Store :=
  let ops := updateFirst (fun o => o.id = opId)
    (fun o => { o with stats := f o.stats }) s.operators
  { s with operators := ops }

/-- `incrementWatcherTypeStats(typeId, field, amount)`. -/
def incrementTypeStat (s : Store) (typeId : String)
    (f : TypeStats → TypeStats) : Store :=
  let tys := updateFirst (fun t => t.id = typeId)
    (fun t => { t with stats := f t.stats }) s.types
  { s with types := tys }

/-- `updateSLAViolation(id, updates)`. -/
def updateSLAViolationIn (s : Store) (id : String)
    (f : SLAViolation → SLAViolation) : Store :=
  { s with violations := updateFirst (fun v => v.id = id) f s.violations }

/-- Optional filters of `getPayments`. -/
structure PaymentFilters where
  watcherId : Option String := none
  customerId : Option String := none
  sinceMs : Option Nat := none
  type : Option String := none
deriving DecidableEq

/-- `getPayments(filters)`.  The `since` ISO-string comparison
`p.createdAt >= filters.since` is the epoch-milliseconds comparison.
The final newest-first sort is omitted: every use below is
order-independent (summation). -/
def getPayments (s : Store) (f : PaymentFilters) : List Payment :=
  let l1 := match f.watcherId with
    | some wid => s.payments.filter (fun p => p.watcherId = wid)
    | none => s.payments
  let l2 := match f.customerId with
    | some cid => l1.filter (fun p => p.customerId = cid)
    | none => l1
  let l3 := match f.sinceMs with
    | some since => l2.filter (fun p => since ≤ p.createdAt.epochMs)
    | none => l2
  match f.type with
  | some ty => l3.filter (fun p => p.type = some ty)
  | none => l3

/-- `getReceiptByHash(fulfillmentHash)`: first receipt carrying the
digest, in stored order. -/
def getReceiptByHash (s : Store) (h : String) : Option Receipt :=
  (s.receipts.filter (fun r => r.fulfillmentHash = h)).head?

/-- `createCustomer` (lazy creation path: tier defaults to free,
freeWatchersUsed to 0). -/
def storeCreateCustomer (now : JsDate) (id : String) (tier : String)
    (freeWatchersUsed : Nat) (s : Store) : Customer × Store :=
  let c : Customer :=
    { id := id, tier := tier, freeWatchersUsed := freeWatchersUsed
      createdAt := now
      upgradedAt := if tier = "paid" then some now else none
      stats := { totalWatchersCreated := 0, totalSpent := 0 } }
  (c, { s with customers := s.customers ++ [c] })

/-- Caller-supplied part of `createWatcher`. -/
structure NewWatcherInput where
  typeId : String
  operatorId : String
  customerId : String
  config : Json
  webhook : String
  billingCycle : String
  nextBillingAt : Option JsDate
  pollingInterval : Nat
  ttl : Option Nat
  retryPolicy : RetryPolicy
deriving DecidableEq

/-- `createWatcher`: derives `expiresAt` from the ttl, initialises the
lifecycle, billing and SLA fields, and appends the record. -/
def storeCreateWatcher (now : JsDate) (input : NewWatcherInput)
    (s : Store) : Watcher × Store :=
  let (wid, s1) := freshId s
  let expiresAt : Option JsDate :=
    match input.ttl with
    | some t => if 0 < t then some (addHours now t) else none
    | none => none
  let w : Watcher :=
    { id := wid, typeId := input.typeId, operatorId := input.operatorId
      customerId := input.customerId, config := input.config
      webhook := input.webhook, status := "active", createdAt := now
      expiresAt := expiresAt, lastChecked := none, lastTriggered := none
      triggerCount := 0, billingCycle := input.billingCycle
      nextBillingAt := input.nextBillingAt, billingHistory := []
      cancelledAt := none, cancellationReason := none
      pollingInterval := input.pollingInterval, ttl := input.ttl
      retryPolicy := input.retryPolicy
      sla := { uptimePercent := 100, violationCount := 0
               lastViolation := none, downtimePeriods := [] }
      lastCheckSuccess := none, consecutiveFailures := 0
      lastCheckResult := none }
  (w, { s1 with watchers := s1.watchers ++ [w] })

/-- Caller-supplied part of `createPayment`. -/
structure NewPaymentInput where
  watcherId : String
  operatorId : String
  customerId : String
  amount : Rat
  operatorShare : Rat
  platformShare : Rat
  network : String
  type : Option String := none
  linkedViolationId : Option String := none
deriving DecidableEq

/-- `createPayment`. -/
def storeCreatePayment (now : JsDate) (input : NewPaymentInput)
    (s : Store) : Payment × Store :=
  let (pid, s1) := freshId s
  let p : Payment :=
    { id := pid, watcherId := input.watcherId
      operatorId := input.operatorId, customerId := input.customerId
      amount := input.amount, operatorShare := input.operatorShare
      platformShare := input.platformShare, network := input.network
      type := input.type, linkedViolationId := input.linkedViolationId
      createdAt := now }
  (p, { s1 with payments := s1.payments ++ [p] })

/-- Caller-supplied part of `createReceipt`. -/
structure NewReceiptInput where
  watcherId : String
  typeId : String
  amount : Rat
  chain : String
  rail : String
  fulfillmentHash : String
  customerId : String
  operatorId : String
  paymentId : String
deriving DecidableEq

/-- `createReceipt`: assigns an `rcpt_`-prefixed id and the current
timestamp. -/
def storeCreateReceipt (now : JsDate) (input : NewReceiptInput)
    (s : Store) : Receipt × Store :=
  let (rid, s1) := freshId s
  let r : Receipt :=
    { id := "rcpt_" ++ rid, watcherId := input.watcherId
      typeId := input.typeId, amount := input.amount
      chain := input.chain, rail := input.rail
      fulfillmentHash := input.fulfillmentHash
      customerId := input.customerId, operatorId := input.operatorId
      paymentId := input.paymentId, timestamp := now }
  (r, { s1 with receipts := s1.receipts ++ [r] })

/-- `createSLAViolation`: the source builds
`{ id: 'sla_' + generateId(), ...violation, createdAt: ... }`, and the
spread overrides the generated id with the one already present on the
passed record, while the trailing `createdAt` wins; the generated id is
burned.  The record is appended. -/
def storeCreateSLAViolation (now : JsDate) (v : SLAViolation) (s : Store) :
    SLAViolation × Store :=
  let (_, s1) := freshId s
  let nv := { v with createdAt := now }
  (nv, { s1 with violations := s1.violations ++ [nv] })

/-! ## The fulfillment fingerprint (src/store.js generateFulfillmentHash)

The source computes
`JSON.stringify({typeId, config, webhook, customerId},
Object.keys(params).sort())` and sha-256-hashes it.  The second
argument is an ARRAY REPLACER: the sorted key list of the params object
(`["config","customerId","typeId","webhook"]`), which both orders and
FILTERS the serialized keys at every nesting level. -/

structure FulfillParams where
  typeId : String
  config : Json
  webhook : String
  customerId : String
deriving DecidableEq

/-- `Object.keys(params).sort()` at the only call site. -/
def fulfillKeysSorted : List String :=
  ["config", "customerId", "typeId", "webhook"]

/-- The string that gets hashed. -/
def normalizedFulfillment (p : FulfillParams) : String :=
  stringifyWith fulfillKeysSorted
    (.obj (.cons "typeId" (.str p.typeId)
      (.cons "config" p.config
        (.cons "webhook" (.str p.webhook)
          (.cons "customerId" (.str p.customerId) .nil)))))

/-- `generateFulfillmentHash`, parametric in the sha-256 primitive
(`sha` stands for hashing, hex-encoding and truncating to 32 chars). -/
def generateFulfillmentHash (sha : String → String) (p : FulfillParams) :
    String :=
  sha (normalizedFulfillment p)

/-! ## Watcher creation (src/routes/watchers.js createSingleWatcher) -/

/-- List-level string prefix test. -/
def listStarts : List Char → List Char → Bool
  | [], _ => true
  | _ :: _, [] => false
  | c :: cs, d :: ds => c = d && listStarts cs ds

/-- JavaScript `s.startsWith(pre)` (the built-in `String.startsWith`
does not evaluate inside the kernel, so the character-list model is
used). -/
def jsStartsWith (s pre : String) : Bool := listStarts pre.toList s.toList

/-- Failure kinds of `createSingleWatcher`; the source throws `Error`s
with these messages (in throw order): invalid pollingInterval, invalid
ttl, invalid retryPolicy, watcher type not found, free tier limit
exceeded, operator not found, invalid webhook URL, invalid
billingCycle, executor-rejected config. -/
inductive CreateError where
  | invalidPollingInterval
  | invalidTtl
  | invalidRetryPolicy
  | typeNotFound
  | tierLimitExceeded
  | operatorNotFound
  | invalidWebhook
  | invalidBillingCycle
  | invalidConfig
deriving DecidableEq

/-- The request body of `POST /watchers` after defaulting
(`billingCycle` defaults to one-time, `pollingInterval`/`ttl`/
`retryPolicy` to `DEFAULT_POLLING`). -/
structure CreateRequest where
  typeId : String
  config : Json
  webhook : String
  customerId : String
  billingCycle : String := "one-time"
  pollingInterval : Nat := 5
  ttl : Option Nat := none
  retryPolicy : RetryPolicy := ⟨3, 1000⟩
deriving DecidableEq

/-- The abbreviated watcher object in the creation response.  On an
idempotent replay whose watcher record has vanished only the id is
echoed (from the receipt). -/
structure WatcherSummary where
  id : String
  typeId : Option String
  status : Option String
deriving DecidableEq

structure CreateResult where
  idempotent : Bool
  watcher : WatcherSummary
  receipt : Receipt
  payment : Option Payment
deriving DecidableEq

/-- On an idempotent replay the response echoes the watcher looked up
by the receipt `watcherId` (or, if it has vanished, just that id). -/
def idemWatcherSummary (s : Store) (r : Receipt) : WatcherSummary :=
  match getWatcher s r.watcherId with
  | some w => ⟨w.id, some w.typeId, some w.status⟩
  | none => ⟨r.watcherId, none, none⟩

/-- `createSingleWatcher(config)`.  `sha` is the sha-256 primitive;
`execValidate e c = false` exactly when executor `e` exists, exposes
`validate`, and rejects config `c` (executors are pluggable external
collaborators). -/
def createSingleWatcher (sha : String → String)
    (execValidate : String → Json → Bool) (now : JsDate)
    (req : CreateRequest) (s : Store) :
    Except CreateError (CreateResult × Store) :=
  if ¬ req.pollingInterval ∈ POLLING_INTERVALS then
    .error .invalidPollingInterval
  else if req.ttl.any (fun t => decide (¬ t ∈ TTL_OPTIONS_HOURS)) then
    .error .invalidTtl
  else if MAX_RETRIES_LIMIT < req.retryPolicy.maxRetries then
    .error .invalidRetryPolicy
  else
    let fulfillmentHash := generateFulfillmentHash sha
      ⟨req.typeId, req.config, req.webhook, req.customerId⟩
    match getReceiptByHash s fulfillmentHash with
    | some existingReceipt =>
      .ok (⟨true, idemWatcherSummary s existingReceipt,
        existingReceipt, none⟩, s)
    | none =>
      let cs : Customer × Store :=
        match getCustomer s req.customerId with
        | some c => (c, s)
        | none => storeCreateCustomer now req.customerId "free" 0 s
      let customer := cs.1
      let s1 := cs.2
      match getWatcherType s1 req.typeId with
      | none => .error .typeNotFound
      | some wtype =>
        if customer.tier = "free" ∧
            FREE_TIER_MAX_WATCHERS ≤ customer.freeWatchersUsed then
          .error .tierLimitExceeded
        else
          let adjustedPollingInterval :=
            if customer.tier = "free" ∧
                req.pollingInterval < FREE_TIER_POLLING_INTERVAL_MIN then
              FREE_TIER_POLLING_INTERVAL_MIN
            else req.pollingInterval
          match getOperator s1 wtype.operatorId with
          | none => .error .operatorNotFound
          | some _op =>
            if ¬ jsStartsWith req.webhook "http" then .error .invalidWebhook
            else if ¬ req.billingCycle ∈
                ["one-time", "weekly", "monthly"] then
              .error .invalidBillingCycle
            else
              let nextBillingAt : Option JsDate :=
                if req.billingCycle = "weekly" then some (addDays now 7)
                else if req.billingCycle = "monthly" then
                  some (addOneMonth now)
                else none
              if wtype.executorId.any
                  (fun e => ! execValidate e req.config) then
                .error .invalidConfig
              else
                let ws := storeCreateWatcher now
                  { typeId := req.typeId, operatorId := wtype.operatorId
                    customerId := req.customerId, config := req.config
                    webhook := req.webhook
                    billingCycle := req.billingCycle
                    nextBillingAt := nextBillingAt
                    pollingInterval := adjustedPollingInterval
                    ttl := req.ttl, retryPolicy := req.retryPolicy } s1
                let watcher := ws.1
                let ps := storeCreatePayment now
                  { watcherId := watcher.id
                    operatorId := wtype.operatorId
                    customerId := watcher.customerId
                    amount := wtype.price
                    operatorShare := wtype.price * OPERATOR_SHARE
                    platformShare := wtype.price * PLATFORM_FEE
                    network := DEFAULT_NETWORK } ws.2
                let payment := ps.1
                let rs := storeCreateReceipt now
                  { watcherId := watcher.id, typeId := wtype.id
                    amount := wtype.price, chain := DEFAULT_NETWORK
                    rail := "x402", fulfillmentHash := fulfillmentHash
                    customerId := watcher.customerId
                    operatorId := wtype.operatorId
                    paymentId := payment.id } ps.2
                let receipt := rs.1
                let s5 := incrementOperatorStat rs.2 wtype.operatorId
                  (fun st =>
                    { st with watchersCreated := st.watchersCreated + 1 })
                let s6 := incrementTypeStat s5 req.typeId
                  (fun st => { st with instances := st.instances + 1 })
                .ok (⟨false,
                  ⟨watcher.id, some watcher.typeId, some watcher.status⟩,
                  receipt, some payment⟩, s6)

/-- HTTP status of `POST /watchers`: 200 for an idempotent replay, 201
for a fresh creation, 500 for any thrown error (the route catches all
errors uniformly). -/
def postWatchersStatus (r : Except CreateError (CreateResult × Store)) :
    Nat :=
  match r with
  | .ok (res, _) => if res.idempotent then 200 else 201
  | .error _ => 500

/-! ## Cancellation (src/routes/watchers.js DELETE /watchers/:id) -/

inductive CancelOutcome where
  | notFound
  | alreadyCancelled
  | ok
deriving DecidableEq

/-- The object-spread patch of the cancellation route: exactly the four
fields status, cancelledAt, cancellationReason and nextBillingAt. -/
def patchCancel (now : JsDate) (reason : Option String) (w : Watcher) :
    Watcher :=
  { w with status := "cancelled", cancelledAt := some now
           cancellationReason := reason, nextBillingAt := none }

/-- `DELETE /watchers/:id`: 404 when absent, 400 when already
cancelled, otherwise apply `patchCancel`.  (The empty-string falsiness
of `reason || null` is subsumed by `reason` being optional.) -/
def cancelWatcher (now : JsDate) (reason : Option String) (s : Store)
    (id : String) : CancelOutcome × Store :=
  match getWatcher s id with
  | none => (.notFound, s)
  | some w =>
    if w.status = "cancelled" then (.alreadyCancelled, s)
    else (.ok, updateWatcher s id (patchCancel now reason))

/-! ## Refund status (src/routes/watchers.js GET /watchers/:id/refund-status) -/

structure RefundStatusResp where
  watcherId : String
  status : String
  refundEligible : Bool
  reason : String
deriving DecidableEq

/-- `(now - createdAt) / (1000 * 60 * 60)` as an exact rational;
JavaScript subtracts epoch milliseconds of Date objects. -/
def hoursSinceCreation (now : JsDate) (w : Watcher) : Rat :=
  (((now.epochMs : Int) - (w.createdAt.epochMs : Int) : Int) : Rat) / 3600000

/-- The refund-status computation on a fetched watcher.  Note the
source measures the grace period from creation to NOW (the query
instant), not to the recorded cancellation instant. -/
def refundStatus (now : JsDate) (w : Watcher) : RefundStatusResp :=
  let hasTriggered := 0 < w.triggerCount
  let isWithinGracePeriod := hoursSinceCreation now w ≤ 1
  let isUnused := ¬ hasTriggered
  let isEligible := isWithinGracePeriod ∧ isUnused ∧ w.status = "cancelled"
  let reason :=
    if ¬ w.status = "cancelled" then "Watcher is not cancelled"
    else if ¬ isWithinGracePeriod then "Cancelled after 1-hour grace period"
    else if hasTriggered then "Webhooks were triggered (usage detected)"
    else if isEligible then "Eligible: cancelled within 1 hour with no usage"
    else "No refund applicable"
  { watcherId := w.id, status := w.status
    refundEligible := decide isEligible, reason := reason }

/-- `GET /watchers/:id/refund-status` is a pure read: it returns a
response computed from the fetched watcher and touches no state. -/
def getRefundStatus (now : JsDate) (s : Store) (id : String) :
    Option RefundStatusResp :=
  (getWatcher s id).map (refundStatus now)

/-! ## SLA tracking (src/routes/watchers.js) -/

/-- `calculateUptimePercent(downtimePeriods)`: clamped percentage of
the trailing 24-hour window not covered by downtime periods (an open
period extends to now). -/
def calculateUptimePercent (now : JsDate) (periods : List DowntimePeriod) :
    Rat :=
  let nowMs : Int := now.epochMs
  let windowStart : Int := nowMs - 24 * 60 * 60 * 1000
  let totalDowntimeMs : Int := periods.foldl (fun acc period =>
    let periodStart : Int := period.startTime.epochMs
    let periodEnd : Int :=
      match period.endTime with
      | some e => e.epochMs
      | none => nowMs
    if windowStart < periodEnd ∧ periodStart < nowMs then
      acc + (min periodEnd nowMs - max periodStart windowStart)
    else acc) 0
  let windowDurationMs : Int := 24 * 60 * 60 * 1000
  let uptimePercent : Rat :=
    ((windowDurationMs - totalDowntimeMs : Int) : Rat) /
      (windowDurationMs : Rat) * 100
  max 0 (min 100 uptimePercent)

/-- Close the first open downtime period, recording end time, duration
in minutes and resolution (no open period: no change). -/
def closeFirstOpen (now : JsDate) : List DowntimePeriod →
    List DowntimePeriod
  | [] => []
  | p :: rest =>
    if p.endTime = none then
      { p with endTime := some now
               durationMinutes := some
                 ((((now.epochMs : Int) - (p.startTime.epochMs : Int) :
                   Int) : Rat) / 60000)
               resolved := true } :: rest
    else p :: closeFirstOpen now rest

def hasOpenPeriod (ps : List DowntimePeriod) : Bool :=
  ps.any (fun p => p.endTime = none)

/-- `updateSLATracking(watcher, success)`: on success close any open
downtime period, on failure open one if none is open; recompute the
24-hour uptime percentage; persist the new sla object on the watcher.
Returns the new sla (the source mutates the shared in-memory object,
which the caller then reads). -/
def updateSLATracking (now : JsDate) (success : Bool) (s : Store)
    (w : Watcher) : SlaInfo × Store :=
  let periods :=
    if success then closeFirstOpen now w.sla.downtimePeriods
    else if hasOpenPeriod w.sla.downtimePeriods then w.sla.downtimePeriods
    else w.sla.downtimePeriods ++
      [{ startTime := now, endTime := none, durationMinutes := none
         reason := "Check failed", resolved := false }]
  let newSla := { w.sla with downtimePeriods := periods
                             uptimePercent :=
                               calculateUptimePercent now periods }
  (newSla, updateWatcher s w.id (fun w2 => { w2 with sla := newSla }))

/-- The violation candidate assembled by `checkSLAViolation` (ids and
refund bookkeeping are added by `handleSLAViolation`). -/
structure ViolationData where
  watcherId : String
  operatorId : String
  customerId : String
  violationType : String
  threshold : Rat
  actualValue : Rat
deriving DecidableEq

/-- `checkSLAViolation(watcher, consecutiveFailures)`: consecutive
failures first, then the 24-hour uptime threshold.  `sla` is the
in-memory sla object as already mutated by `updateSLATracking`. -/
def checkSLAViolation (w : Watcher) (sla : SlaInfo)
    (consecutiveFailures : Nat) : Option ViolationData :=
  if SLA_CONSECUTIVE_FAILURE_LIMIT ≤ consecutiveFailures then
    some { watcherId := w.id, operatorId := w.operatorId
           customerId := w.customerId
           violationType := "consecutive_failures"
           threshold := (SLA_CONSECUTIVE_FAILURE_LIMIT : Rat)
           actualValue := (consecutiveFailures : Rat) }
  else if sla.uptimePercent < SLA_DEFAULT_UPTIME_THRESHOLD then
    some { watcherId := w.id, operatorId := w.operatorId
           customerId := w.customerId, violationType := "uptime"
           threshold := SLA_DEFAULT_UPTIME_THRESHOLD
           actualValue := sla.uptimePercent }
  else none

/-- `handleSLAViolation(violationData)`: persist the violation with
auto-refund enabled, compute the refund as 50 percent of the trailing
7-day payments of the watcher, and if positive persist a negative
credit payment split 80/20 and backfill refundAmount/refundId on the
violation. -/
def handleSLAViolation (now : JsDate) (vd : ViolationData) (s : Store) :
    SLAViolation × Store :=
  let (vid, s0) := freshId s
  let record : SLAViolation :=
    { id := vid, watcherId := vd.watcherId, operatorId := vd.operatorId
      customerId := vd.customerId, violationType := vd.violationType
      threshold := vd.threshold, actualValue := vd.actualValue
      startTime := now, endTime := now, durationMinutes := 0
      autoRefund := true, refundAmount := none, refundId := none
      createdAt := now, acknowledged := false, resolution := none }
  let (violation, s1) := storeCreateSLAViolation now record s0
  let recentPayments := getPayments s1
    { watcherId := some vd.watcherId
      sinceMs := some (now.epochMs - 7 * 24 * 60 * 60 * 1000) }
  let refundAmount :=
    (recentPayments.foldl (fun acc p => acc + p.amount) 0) *
      SLA_VIOLATION_REFUND_PERCENT
  if 0 < refundAmount then
    let (refund, s2) := storeCreatePayment now
      { watcherId := vd.watcherId, operatorId := vd.operatorId
        customerId := vd.customerId, amount := -refundAmount
        operatorShare := -refundAmount * (4 / 5)
        platformShare := -refundAmount * (1 / 5)
        network := DEFAULT_NETWORK, type := some "sla_violation_refund"
        linkedViolationId := some violation.id } s1
    let s3 := updateSLAViolationIn s2 violation.id (fun v =>
      { v with refundAmount := some refundAmount
               refundId := some refund.id })
    (violation, s3)
  else (violation, s1)

/-! ## Webhook delivery loops -/

/-- Oracle for the remote webhook endpoint: whether the fetch of the
given attempt index returns a 2xx response. -/
abbrev WebhookOracle := Nat → Bool

/-- Observable outcome of a delivery loop: eventual success, number of
fetch attempts made, and the waits (in ms) slept between attempts, in
order. -/
structure WebhookDeliveryResult where
  success : Bool
  attempts : Nat
  waits : List Nat
deriving DecidableEq

/-- The retry loop of the mounted cron
(`for (attempt = 0; attempt < maxRetries + 1; attempt++)` with a wait
of `backoffMs * (attempt + 1)` after every failed non-final attempt).
`remaining` is the number of loop iterations left, initially
`maxRetries + 1`. -/
def webhookLoopGo (ok : WebhookOracle) (backoffMs : Nat) (attempt : Nat) :
    Nat → WebhookDeliveryResult
  | 0 => ⟨false, 0, []⟩
  | remaining + 1 =>
    if ok attempt then ⟨true, 1, []⟩
    else if remaining = 0 then ⟨false, 1, []⟩
    else
      let rest := webhookLoopGo ok backoffMs (attempt + 1) remaining
      ⟨rest.success, rest.attempts + 1, backoffMs * (attempt + 1) :: rest.waits⟩

/-- Webhook delivery of the mounted `POST /cron/check`
(src/routes/watchers.js): linear waits `backoffMs * (attempt + 1)`. -/
def deliverWebhookInlineRetry (rp : RetryPolicy) (ok : WebhookOracle) :
    WebhookDeliveryResult :=
  webhookLoopGo ok rp.backoffMs 0 (rp.maxRetries + 1)

/-- The retry loop of `deliverWebhookWithRetry` in the unmounted
enhanced cron router: exponential waits `backoffMs * 2 ^ attempt`. -/
def webhookExpLoopGo (ok : WebhookOracle) (backoffMs : Nat)
    (attempt : Nat) : Nat → WebhookDeliveryResult
  | 0 => ⟨false, 0, []⟩
  | remaining + 1 =>
    if ok attempt then ⟨true, 1, []⟩
    else if remaining = 0 then ⟨false, 1, []⟩
    else
      let rest := webhookExpLoopGo ok backoffMs (attempt + 1) remaining
      ⟨rest.success, rest.attempts + 1, backoffMs * 2 ^ attempt :: rest.waits⟩

/-- `deliverWebhookWithRetry(watcher, data, retryPolicy)` of the
enhanced cron router (exponential backoff). -/
def deliverWebhookWithRetry (rp : RetryPolicy) (ok : WebhookOracle) :
    WebhookDeliveryResult :=
  webhookExpLoopGo ok rp.backoffMs 0 (rp.maxRetries + 1)

/-! ## The mounted check tick (src/routes/watchers.js POST /cron/check)

This is the handler the server actually serves: server.js mounts only
the watchers router, so `POST /api/cron/check` runs this loop. -/

/-- Outcome of one `executor.check(config)` invocation (a 30s timeout
is folded into `failure`, as the source treats it identically to a
thrown error). -/
inductive ExecOutcome where
  | success (triggered : Bool) (data : Json)
  | failure (msg : String)
deriving DecidableEq

structure TickResults where
  checked : Nat := 0
  triggered : Nat := 0
  errors : Nat := 0
  skipped : Nat := 0
  slaViolations : Nat := 0
deriving DecidableEq

/-- Per-watcher oracles of one tick: executor registry membership,
check outcomes and webhook responses. -/
structure TickOracles where
  hasExec : String → Bool
  outcome : String → ExecOutcome
  webhookOk : String → WebhookOracle

/-- The loop body of the mounted `POST /cron/check` for one watcher
`w` of the tick snapshot.  No expiry handling and no polling-interval
gate exist in this handler: every active watcher reaches the executor
whenever the type and executor resolve. -/
def cronCheckWatcherStep (oracles : TickOracles) (now : JsDate)
    (s : Store) (w : Watcher) (r : TickResults) : Store × TickResults :=
  match getWatcherType s w.typeId with
  | none => (s, { r with skipped := r.skipped + 1 })
  | some t =>
    match t.executorId with
    | none => (s, { r with skipped := r.skipped + 1 })
    | some e =>
      if ¬ oracles.hasExec e then (s, { r with skipped := r.skipped + 1 })
      else
        let r1 := { r with checked := r.checked + 1 }
        match oracles.outcome w.id with
        | .success triggered data =>
          let (_, s1) := updateSLATracking now true s w
          let s2 := updateWatcher s1 w.id (fun w2 =>
            { w2 with lastChecked := some now
                      lastCheckResult := some (.data data)
                      lastCheckSuccess := some true
                      consecutiveFailures := 0 })
          if triggered then
            let wr := deliverWebhookInlineRetry w.retryPolicy
              (oracles.webhookOk w.id)
            if wr.success then
              let s3 := updateWatcher s2 w.id (fun w2 =>
                { w2 with lastTriggered := some now
                          triggerCount := w.triggerCount + 1 })
              let s4 := incrementOperatorStat s3 w.operatorId (fun st =>
                { st with totalTriggers := st.totalTriggers + 1 })
              let s5 := incrementTypeStat s4 w.typeId (fun st =>
                { st with triggers := st.triggers + 1 })
              (s5, { r1 with triggered := r1.triggered + 1 })
            else (s2, { r1 with errors := r1.errors + 1 })
          else (s2, r1)
        | .failure msg =>
          let consecutiveFailures := w.consecutiveFailures + 1
          let s1 := updateWatcher s w.id (fun w2 =>
            { w2 with lastChecked := some now
                      lastCheckSuccess := some false
                      consecutiveFailures := consecutiveFailures
                      lastCheckResult := some (.errorMsg msg) })
          let (newSla, s2) := updateSLATracking now false s1 w
          let r2 := { r1 with errors := r1.errors + 1 }
          match checkSLAViolation w newSla consecutiveFailures with
          | some vd =>
            let (_, s3) := handleSLAViolation now vd s2
            (s3, { r2 with slaViolations := r2.slaViolations + 1 })
          | none => (s2, r2)

/-- The mounted `POST /cron/check`: snapshot the watcher list, keep the
active ones, and run the loop body over the snapshot while threading
the store. -/
def cronCheckTick (oracles : TickOracles) (now : JsDate) (s : Store) :
    Store × TickResults :=
  let active := s.watchers.filter (fun w => w.status = "active")
  active.foldl (fun acc w =>
    cronCheckWatcherStep oracles now acc.1 w acc.2) (s, {})

/-! ## The enhanced check tick (the unmounted cron router)

A second `POST /cron/check` implementation exists in the repository
(the enhanced cron router with configurable polling); server.js never
mounts it.  It is embedded here to contrast with the mounted one. -/

structure TickResultsE where
  checked : Nat := 0
  triggered : Nat := 0
  errors : Nat := 0
  skipped : Nat := 0
  expired : Nat := 0
  retried : Nat := 0
deriving DecidableEq

/-- The loop body of the enhanced cron for one snapshot watcher:
expire-and-skip when `expiresAt` has passed, skip when less than
`pollingInterval` minutes have elapsed since `lastChecked`, otherwise
check and (on trigger) deliver with exponential backoff. -/
def cronCheckWatcherStepE (oracles : TickOracles) (now : JsDate)
    (s : Store) (w : Watcher) (r : TickResultsE) : Store × TickResultsE :=
  if w.expiresAt.any (fun e => decide (e.epochMs ≤ now.epochMs)) then
    (updateWatcher s w.id (fun w2 => { w2 with status := "expired" }),
      { r with expired := r.expired + 1 })
  else
    let pollingIntervalMs :=
      (if w.pollingInterval = 0 then 5 else w.pollingInterval) * 60 * 1000
    if w.lastChecked.any (fun t =>
        decide ((now.epochMs : Int) - (t.epochMs : Int) <
          (pollingIntervalMs : Int))) then
      (s, { r with skipped := r.skipped + 1 })
    else
      match getWatcherType s w.typeId with
      | none => (s, { r with skipped := r.skipped + 1 })
      | some t =>
        match t.executorId with
        | none => (s, { r with skipped := r.skipped + 1 })
        | some e =>
          if ¬ oracles.hasExec e then
            (s, { r with skipped := r.skipped + 1 })
          else
            let r1 := { r with checked := r.checked + 1 }
            match oracles.outcome w.id with
            | .failure _ => (s, { r1 with errors := r1.errors + 1 })
            | .success triggered data =>
              let s1 := updateWatcher s w.id (fun w2 =>
                { w2 with lastChecked := some now
                          lastCheckResult := some (.data data) })
              if triggered then
                let wr := deliverWebhookWithRetry w.retryPolicy
                  (oracles.webhookOk w.id)
                if wr.success then
                  let s2 := updateWatcher s1 w.id (fun w2 =>
                    { w2 with lastTriggered := some now
                              triggerCount := w.triggerCount + 1 })
                  let s3 := incrementOperatorStat s2 w.operatorId
                    (fun st =>
                      { st with totalTriggers := st.totalTriggers + 1 })
                  let s4 := incrementTypeStat s3 w.typeId (fun st =>
                    { st with triggers := st.triggers + 1 })
                  let r2 := { r1 with triggered := r1.triggered + 1 }
                  (s4, if 1 < wr.attempts then
                    { r2 with retried := r2.retried + 1 } else r2)
                else (s1, { r1 with errors := r1.errors + 1 })
              else (s1, r1)

/-- The enhanced (unmounted) `POST /cron/check`. -/
def cronCheckTickE (oracles : TickOracles) (now : JsDate) (s : Store) :
    Store × TickResultsE :=
  let active := s.watchers.filter (fun w => w.status = "active")
  active.foldl (fun acc w =>
    cronCheckWatcherStepE oracles now acc.1 w acc.2) (s, {})

/-! ## Billing engine (src/billing.js) -/

/-- `checkDueBillings()`: active watchers with a recurring cycle whose
`nextBillingAt` has arrived (ISO comparison = epoch comparison). -/
def checkDueBillings (now : JsDate) (s : Store) : List Watcher :=
  (s.watchers.filter (fun w => w.status = "active")).filter (fun w =>
    ¬ w.billingCycle = "one-time" ∧
    w.nextBillingAt.any (fun d => decide (d.epochMs ≤ now.epochMs)))

inductive BillingOutcome where
  | noopOneTime
  | noopNotDue
  | failed (record : BillingRecord)
  | succeeded (record : BillingRecord) (payment : Payment)
      (nextBillingAt : Option JsDate)
deriving DecidableEq

/-- `processBilling(watcherId)`.  `paymentSuccessful` determinises the
simulated settlement (`Math.random() > 0.1`); the system-error catch
branch models an external persistence fault and is out of scope. -/
def processBilling (now : JsDate) (paymentSuccessful : Bool) (s : Store)
    (watcherId : String) : Except String (BillingOutcome × Store) :=
  match getWatcher s watcherId with
  | none => .error "Watcher not found"
  | some watcher =>
    if watcher.billingCycle = "one-time" then .ok (.noopOneTime, s)
    else
      match watcher.nextBillingAt with
      | none => .ok (.noopNotDue, s)
      | some billingDate =>
        if now.epochMs < billingDate.epochMs then .ok (.noopNotDue, s)
        else
          match getWatcherType s watcher.typeId with
          | none => .error "Watcher type not found"
          | some watcherType =>
            if ¬ paymentSuccessful then
              let (rid, s0) := freshId s
              let record : BillingRecord :=
                { id := rid, billingDate := billingDate
                  processedAt := now, amount := watcherType.price
                  status := "failed", paymentId := none
                  failureReason := some "Simulated payment failure" }
              let s1 := updateWatcher s0 watcherId (fun w =>
                { w with status := "suspended"
                         billingHistory :=
                           watcher.billingHistory ++ [record] })
              .ok (.failed record, s1)
            else
              let (payment, s1) := storeCreatePayment now
                { watcherId := watcherId
                  operatorId := watcher.operatorId
                  customerId := watcher.customerId
                  amount := watcherType.price
                  operatorShare := watcherType.price * OPERATOR_SHARE
                  platformShare := watcherType.price * PLATFORM_FEE
                  network := DEFAULT_NETWORK } s
              let (rid, s2) := freshId s1
              let record : BillingRecord :=
                { id := rid, billingDate := billingDate
                  processedAt := now, amount := watcherType.price
                  status := "success", paymentId := some payment.id
                  failureReason := none }
              let nextBillingAt : Option JsDate :=
                if watcher.billingCycle = "weekly" then
                  some (addDays billingDate 7)
                else if watcher.billingCycle = "monthly" then
                  some (addOneMonth billingDate)
                else none
              let s3 := updateWatcher s2 watcherId (fun w =>
                { w with nextBillingAt := nextBillingAt
                         billingHistory :=
                           watcher.billingHistory ++ [record] })
              let s4 := incrementOperatorStat s3 watcher.operatorId
                (fun st =>
                  { st with totalEarned :=
                      st.totalEarned + payment.operatorShare })
              .ok (.succeeded record payment nextBillingAt, s4)

/-! ## Concrete fixtures used by the scenario theorems

Model year 2 keeps kernel evaluation of the calendar cheap; only
differences and order of instants matter. -/

/-- A registered operator. -/
def opFix : Operator := ⟨"op1", "0xop", "active", ⟨0, 0, 0, 100⟩⟩

/-- A watcher type priced at 0.01 USD with a registered executor. -/
def typeFix : WatcherType :=
  ⟨"t1", "op1", 1 / 100, some "wallet-balance", "active", ⟨0, 0⟩⟩

/-- A store holding one operator and one watcher type. -/
def fixStore : Store := ⟨[opFix], [typeFix], [], [], [], [], [], 0⟩

/-- Midnight, January 1 of model year 2. -/
def day0 : JsDate := ⟨2, 0, 1, 0⟩

/-- A wallet-balance style config. -/
def configA : Json := .obj (.cons "threshold" (.num 1) .nil)

/-- The same config shape with a different threshold value. -/
def configB : Json := .obj (.cons "threshold" (.num 2) .nil)

/-- The identity stand-in for sha-256 in closed scenarios: it maps the
distinct canonical serializations involved to distinct digests, which
is the (collision-resistance) behaviour assumed of the real
primitive. -/
def shaId : String → String := fun x => x

/-- Oracle under which every executor exists and accepts every
config. -/
def execOk : String → Json → Bool := fun _ _ => true

/-- Extract the resulting store of a creation call (closed-scenario
statement helper; the fallback is never reached in the scenarios). -/
def storeAfter (r : Except CreateError (CreateResult × Store))
    (fallback : Store) : Store :=
  match r with
  | .ok (_, s) => s
  | .error _ => fallback

/-- Extract the result record of a creation call (closed-scenario
statement helper). -/
def resultAfter (r : Except CreateError (CreateResult × Store))
    (fallback : CreateResult) : CreateResult :=
  match r with
  | .ok (res, _) => res
  | .error _ => fallback

/-! ## C1 — the fulfillment fingerprint -/

def paramsA : FulfillParams := ⟨"t1", configA, "http://hook.example/a", "cust1"⟩
def paramsB : FulfillParams := ⟨"t1", configB, "http://hook.example/a", "cust1"⟩
def paramsEmptyConfig : FulfillParams :=
  ⟨"t1", .obj .nil, "http://hook.example/a", "cust1"⟩

/-- Claim C1 (code bug): `generateFulfillmentHash` is meant to
canonicalize the four fields with sorted keys while retaining the full
content of `config`; instead the sorted key list acts as a
`JSON.stringify` array REPLACER, which filters object keys at every
nesting level, so the entire content of `config` is dropped from the
canonical serialization: two requests whose configs differ only in
nested values (here `threshold` 1 versus 2) serialize identically —
indeed identically to an empty config — and therefore collide under
every hash function. -/
theorem c1_fulfillment_hash_drops_config :
    ∀ sha : String → String,
      generateFulfillmentHash sha paramsA =
        generateFulfillmentHash sha paramsB ∧
      generateFulfillmentHash sha paramsA =
        generateFulfillmentHash sha paramsEmptyConfig ∧
      paramsA.config ≠ paramsB.config := by
  intro sha
  refine ⟨congrArg sha (by decide), congrArg sha (by decide), by decide⟩

/-! ## C4 — refund eligibility -/

/-- A watcher created at `day0`, cancelled 59 minutes later, with no
webhook ever fired. -/
def watcherCancelled59 : Watcher :=
  { id := "w1", typeId := "t1", operatorId := "op1", customerId := "c1"
    config := configA, webhook := "http://hook.example/a"
    status := "cancelled", createdAt := day0, expiresAt := none
    lastChecked := none, lastTriggered := none, triggerCount := 0
    billingCycle := "one-time", nextBillingAt := none
    billingHistory := [], cancelledAt := some ⟨2, 0, 1, 3540000⟩
    cancellationReason := none, pollingInterval := 5, ttl := none
    retryPolicy := ⟨3, 1000⟩, sla := ⟨100, 0, none, []⟩
    lastCheckSuccess := none, consecutiveFailures := 0
    lastCheckResult := none }

/-- Claim C4 (code bug): the refund-status query is supposed to report
a watcher cancelled within 1 hour of creation (trigger count 0) as
eligible whenever queried; the handler instead measures the grace
period from creation to the QUERY instant (`now - createdAt`), never
consulting `cancelledAt`.  The same watcher — created at `day0`,
cancelled at 59 minutes, never triggered — is reported eligible when
queried at 59.5 minutes but ineligible when queried at 2 hours. -/
theorem c4_refund_eligibility_depends_on_query_time :
    (refundStatus ⟨2, 0, 1, 3570000⟩ watcherCancelled59).refundEligible
      = true ∧
    (refundStatus ⟨2, 0, 1, 7200000⟩ watcherCancelled59).refundEligible
      = false ∧
    (refundStatus ⟨2, 0, 1, 7200000⟩ watcherCancelled59).reason
      = "Cancelled after 1-hour grace period" ∧
    watcherCancelled59.cancelledAt = some ⟨2, 0, 1, 3540000⟩ ∧
    watcherCancelled59.triggerCount = 0 := by decide

/-! ## C7 — webhook retry backoff -/

/-- Closed form of the mounted retry loop against an always-failing
endpoint: linear waits. -/
theorem webhookLoopGo_alwaysFail (b : Nat) :
    ∀ n a, webhookLoopGo (fun _ => false) b a (n + 1) =
      ⟨false, n + 1, (List.range' (a + 1) n).map (fun i => b * i)⟩ := by
  intro n
  induction n with
  | zero => intro a; rfl
  | succ n ih =>
    intro a
    rw [webhookLoopGo, List.range'_succ, ih (a + 1)]
    rfl

/-- Claim C7, counterexample: the mounted cron waits
`backoffMs * (attempt + 1)` between webhook retries, not
`backoffMs * 2 ^ attempt`: with `maxRetries := 3, backoffMs := 100` the
waits against an always-failing endpoint are 100, 200, 300 — the
exponential schedule would give 100, 200, 400. -/
theorem c7_backoff_not_exponential_counterexample :
    (deliverWebhookInlineRetry ⟨3, 100⟩ (fun _ => false)).waits
      = [100, 200, 300] ∧
    ¬ (deliverWebhookInlineRetry ⟨3, 100⟩ (fun _ => false)).waits
      = (List.range 3).map (fun attempt => 100 * 2 ^ attempt) := by
  decide

/-- Claim C7 (amended): on persistent webhook failure the mounted cron
makes exactly `maxRetries + 1` attempts and then gives up, waiting
`backoffMs * (attempt + 1)` (linear, not exponential) after each failed
non-final attempt; with retryPolicy `{maxRetries := 2, backoffMs :=
100}` an always-failing endpoint is attempted exactly 3 times with
waits of 100 ms then 200 ms.  (The repository also contains an
unmounted enhanced cron whose `deliverWebhookWithRetry` does use
`backoffMs * 2 ^ attempt`.) -/
theorem c7_webhook_retry_linear_backoff :
    (∀ rp : RetryPolicy,
      (deliverWebhookInlineRetry rp (fun _ => false)).success = false ∧
      (deliverWebhookInlineRetry rp (fun _ => false)).attempts
        = rp.maxRetries + 1 ∧
      (deliverWebhookInlineRetry rp (fun _ => false)).waits
        = (List.range rp.maxRetries).map
            (fun attempt => rp.backoffMs * (attempt + 1))) ∧
    (deliverWebhookInlineRetry ⟨2, 100⟩ (fun _ => false)).attempts = 3 ∧
    (deliverWebhookInlineRetry ⟨2, 100⟩ (fun _ => false)).waits
      = [100, 200] := by
  refine ⟨?_, by decide, by decide⟩
  intro rp
  rw [deliverWebhookInlineRetry, webhookLoopGo_alwaysFail]
  refine ⟨rfl, rfl, ?_⟩
  rw [List.range'_eq_map_range]
  simp only [List.map_map]
  refine List.map_congr_left ?_
  intro i _
  simp [Function.comp, Nat.add_comm]

/-- The unmounted enhanced cron does implement the exponential
schedule the specification describes (same retry policy and endpoint
as the counterexample above: waits 100, 200, 400). -/
theorem deliverWebhookWithRetry_exponential_example :
    (deliverWebhookWithRetry ⟨3, 100⟩ (fun _ => false)).waits
      = [100, 200, 400] := by decide

/-! ## C5 / C6 — the mounted check tick versus the enhanced one -/

/-- A fresh active watcher fixture; scenario watchers override
individual fields. -/
def baseWatcher : Watcher :=
  { id := "w", typeId := "t1", operatorId := "op1", customerId := "c1"
    config := configA, webhook := "http://hook.example/a"
    status := "active", createdAt := day0, expiresAt := none
    lastChecked := none, lastTriggered := none, triggerCount := 0
    billingCycle := "one-time", nextBillingAt := none
    billingHistory := [], cancelledAt := none, cancellationReason := none
    pollingInterval := 5, ttl := none, retryPolicy := ⟨3, 1000⟩
    sla := ⟨100, 0, none, []⟩, lastCheckSuccess := none
    consecutiveFailures := 0, lastCheckResult := none }

/-- One hour after `day0`. -/
def tickNow : JsDate := ⟨2, 0, 1, 3600000⟩

/-- Oracles: every executor exists, every check succeeds without
triggering, webhooks accept. -/
def oraclesQuiet : TickOracles :=
  ⟨fun _ => true, fun _ => .success false (.obj .nil), fun _ _ => true⟩

/-- An active watcher on a 60-minute cadence that was last checked one
minute before the tick. -/
def watcherJustChecked : Watcher :=
  { baseWatcher with id := "w5", pollingInterval := 60
                     lastChecked := some ⟨2, 0, 1, 3540000⟩ }

def storeC5 : Store := ⟨[opFix], [typeFix], [watcherJustChecked], [], [], [], [], 0⟩

/-- Claim C5 (code bug): the mounted `POST /cron/check` has no
per-watcher cadence gate.  A watcher with pollingInterval 60 minutes
that was last checked one minute ago is supposed to be skipped as a
no-op; the mounted tick invokes its executor anyway (checked = 1,
skipped = 0) and overwrites `lastChecked`, while the repository's
unmounted enhanced cron — the implementation the specification
describes — does skip it and leaves the store untouched. -/
theorem c5_mounted_cron_ignores_polling_cadence :
    (cronCheckTick oraclesQuiet tickNow storeC5).2.checked = 1 ∧
    (cronCheckTick oraclesQuiet tickNow storeC5).2.skipped = 0 ∧
    (getWatcher (cronCheckTick oraclesQuiet tickNow storeC5).1 "w5").map
      (fun w => w.lastChecked) = some (some tickNow) ∧
    (cronCheckTickE oraclesQuiet tickNow storeC5).2.skipped = 1 ∧
    (cronCheckTickE oraclesQuiet tickNow storeC5).2.checked = 0 ∧
    (cronCheckTickE oraclesQuiet tickNow storeC5).1 = storeC5 := by decide

/-- An active watcher whose `expiresAt` passed half an hour before the
tick. -/
def watcherPastExpiry : Watcher :=
  { baseWatcher with id := "w6", expiresAt := some ⟨2, 0, 1, 1800000⟩ }

def storeC6 : Store := ⟨[opFix], [typeFix], [watcherPastExpiry], [], [], [], [], 0⟩

/-- Claim C6 (code bug): the mounted `POST /cron/check` never
transitions a lapsed watcher to `expired`.  An active watcher whose
`expiresAt` lies in the past is supposed to be marked expired and
skipped for the tick; the mounted tick runs its executor (checked = 1)
and leaves it `active`, while the repository's unmounted enhanced cron
performs exactly the claimed transition (status becomes `expired`, the
executor is not invoked). -/
theorem c6_mounted_cron_never_expires :
    (cronCheckTick oraclesQuiet tickNow storeC6).2.checked = 1 ∧
    (getWatcher (cronCheckTick oraclesQuiet tickNow storeC6).1 "w6").map
      (fun w => w.status) = some "active" ∧
    (cronCheckTickE oraclesQuiet tickNow storeC6).2.expired = 1 ∧
    (cronCheckTickE oraclesQuiet tickNow storeC6).2.checked = 0 ∧
    (getWatcher (cronCheckTickE oraclesQuiet tickNow storeC6).1 "w6").map
      (fun w => w.status) = some "expired" := by decide

/-! ## C3 — the free-tier cap -/

/-- First creation request of the free customer. -/
def reqFree1 : CreateRequest :=
  { typeId := "t1", config := configA
    webhook := "http://hook.example/a", customerId := "freecust" }

/-- A second, different request of the same customer (different
webhook, hence a different fulfillment digest). -/
def reqFree2 : CreateRequest :=
  { typeId := "t1", config := configA
    webhook := "http://hook.example/b", customerId := "freecust" }

def c3run1 : Except CreateError (CreateResult × Store) :=
  createSingleWatcher shaId execOk day0 reqFree1 fixStore
def c3store1 : Store := storeAfter c3run1 fixStore
def c3run2 : Except CreateError (CreateResult × Store) :=
  createSingleWatcher shaId execOk day0 reqFree2 c3store1
def c3store2 : Store := storeAfter c3run2 fixStore

/-- Fallback result for extraction, marked idempotent so it can never
stand in for a fresh creation. -/
def fallbackIdem : CreateResult :=
  ⟨true, ⟨"", none, none⟩,
    ⟨"", "", "", 0, "", "", "", "", "", "", day0⟩, none⟩

/-- Claim C3 (code bug): a customer starting at tier free with
freeWatchersUsed = 0 is supposed to be limited to exactly one watcher,
every later attempt failing with the tier-limit error.  No code path
ever increments `freeWatchersUsed`, so the gate
`tier = free ∧ freeWatchersUsed ≥ 1` never fires for customers created
by this flow: the same still-free customer creates a second watcher
with a second payload, both with status 201, and still shows
freeWatchersUsed = 0 afterwards. -/
theorem c3_free_tier_cap_not_enforced :
    postWatchersStatus c3run1 = 201 ∧
    postWatchersStatus c3run2 = 201 ∧
    (resultAfter c3run1 fallbackIdem).idempotent = false ∧
    (resultAfter c3run2 fallbackIdem).idempotent = false ∧
    c3store2.watchers.length = 2 ∧
    (c3store2.watchers.filter
      (fun w => w.customerId = "freecust")).length = 2 ∧
    (getCustomer c3store2 "freecust").map
      (fun c => (c.tier, c.freeWatchersUsed)) = some ("free", 0) := by decide

/-! ## C10 — the cancellation frame -/

theorem updateFirst_length (p : α → Bool) (f : α → α) :
    ∀ l : List α, (updateFirst p f l).length = l.length := by
  intro l
  induction l with
  | nil => rfl
  | cons x xs ih =>
    rw [updateFirst]
    by_cases hx : p x
    · rw [if_pos hx]; rfl
    · rw [if_neg hx]
      simp only [List.length_cons, ih]

theorem updateFirst_mem_of_not (p : α → Bool) (f : α → α) :
    ∀ l : List α, ∀ v ∈ l, p v = false → v ∈ updateFirst p f l := by
  intro l
  induction l with
  | nil => intro v hv; cases hv
  | cons x xs ih =>
    intro v hv hpv
    rw [updateFirst]
    by_cases hx : p x
    · rw [if_pos hx]
      cases hv with
      | head => rw [hpv] at hx; cases hx
      | tail _ hv => exact List.mem_cons_of_mem _ hv
    · rw [if_neg hx]
      cases hv with
      | head => exact List.mem_cons_self _ _
      | tail _ hv => exact List.mem_cons_of_mem _ (ih v hv hpv)

/-- What cancellation leaves of the store: outcome ok, every other
collection and the id counter untouched, the watcher list rewritten
only at the first record with the given id by `patchCancel`, which
changes exactly status, cancelledAt, cancellationReason and
nextBillingAt and preserves all twenty remaining fields; every other
watcher record survives unchanged and the list keeps its length. -/
def CancelFrameSpec (now : JsDate) (reason : Option String) (s : Store)
    (id : String) : Prop :=
  (cancelWatcher now reason s id).1 = .ok ∧
  (cancelWatcher now reason s id).2.operators = s.operators ∧
  (cancelWatcher now reason s id).2.types = s.types ∧
  (cancelWatcher now reason s id).2.payments = s.payments ∧
  (cancelWatcher now reason s id).2.receipts = s.receipts ∧
  (cancelWatcher now reason s id).2.customers = s.customers ∧
  (cancelWatcher now reason s id).2.violations = s.violations ∧
  (cancelWatcher now reason s id).2.idCounter = s.idCounter ∧
  (cancelWatcher now reason s id).2.watchers =
    updateFirst (fun w2 => w2.id = id) (patchCancel now reason)
      s.watchers ∧
  (∀ v : Watcher,
    (patchCancel now reason v).status = "cancelled" ∧
    (patchCancel now reason v).cancelledAt = some now ∧
    (patchCancel now reason v).cancellationReason = reason ∧
    (patchCancel now reason v).nextBillingAt = none ∧
    (patchCancel now reason v).id = v.id ∧
    (patchCancel now reason v).typeId = v.typeId ∧
    (patchCancel now reason v).operatorId = v.operatorId ∧
    (patchCancel now reason v).customerId = v.customerId ∧
    (patchCancel now reason v).config = v.config ∧
    (patchCancel now reason v).webhook = v.webhook ∧
    (patchCancel now reason v).createdAt = v.createdAt ∧
    (patchCancel now reason v).expiresAt = v.expiresAt ∧
    (patchCancel now reason v).lastChecked = v.lastChecked ∧
    (patchCancel now reason v).lastTriggered = v.lastTriggered ∧
    (patchCancel now reason v).triggerCount = v.triggerCount ∧
    (patchCancel now reason v).billingCycle = v.billingCycle ∧
    (patchCancel now reason v).billingHistory = v.billingHistory ∧
    (patchCancel now reason v).pollingInterval = v.pollingInterval ∧
    (patchCancel now reason v).ttl = v.ttl ∧
    (patchCancel now reason v).retryPolicy = v.retryPolicy ∧
    (patchCancel now reason v).sla = v.sla ∧
    (patchCancel now reason v).lastCheckSuccess = v.lastCheckSuccess ∧
    (patchCancel now reason v).consecutiveFailures =
      v.consecutiveFailures ∧
    (patchCancel now reason v).lastCheckResult = v.lastCheckResult) ∧
  (∀ v ∈ s.watchers, ¬ v.id = id →
    v ∈ (cancelWatcher now reason s id).2.watchers) ∧
  (cancelWatcher now reason s id).2.watchers.length = s.watchers.length

/-- Claim C10: cancelling a not-yet-cancelled watcher modifies only the
four fields status, cancelledAt, cancellationReason and nextBillingAt
of the first watcher record with that id, and leaves every other field
of it, every other watcher, and every other collection of the store
unchanged. -/
theorem c10_cancel_modifies_only_cancellation_fields
    (now : JsDate) (reason : Option String) (s : Store) (id : String)
    (w : Watcher) (hw : getWatcher s id = some w)
    (hnc : ¬ w.status = "cancelled") :
    CancelFrameSpec now reason s id := by
  have hcw : cancelWatcher now reason s id =
      (.ok, updateWatcher s id (patchCancel now reason)) := by
    unfold cancelWatcher
    rw [hw]
    change (if w.status = "cancelled" then (CancelOutcome.alreadyCancelled, s)
      else (CancelOutcome.ok, updateWatcher s id (patchCancel now reason)))
      = _
    rw [if_neg hnc]
  refine ⟨by rw [hcw], by rw [hcw]; rfl, by rw [hcw]; rfl,
    by rw [hcw]; rfl, by rw [hcw]; rfl, by rw [hcw]; rfl,
    by rw [hcw]; rfl, by rw [hcw]; rfl, by rw [hcw]; rfl,
    ?_, ?_, ?_⟩
  · intro v
    exact ⟨rfl, rfl, rfl, rfl, rfl, rfl, rfl, rfl, rfl, rfl, rfl, rfl,
      rfl, rfl, rfl, rfl, rfl, rfl, rfl, rfl, rfl, rfl, rfl, rfl⟩
  · intro v hv hvid
    rw [hcw]
    exact updateFirst_mem_of_not _ _ s.watchers v hv (by simpa using hvid)
  · rw [hcw]
    exact updateFirst_length _ _ s.watchers

/-- A store holding one active watcher, for the cancellation witness. -/
def storeC10 : Store := ⟨[opFix], [typeFix], [baseWatcher], [], [], [], [], 3⟩

/-- Witness for C10 at a concrete store and watcher. -/
theorem c10_cancel_modifies_only_cancellation_fields_witness :
    CancelFrameSpec tickNow (some "changed my mind") storeC10 "w" :=
  c10_cancel_modifies_only_cancellation_fields tickNow
    (some "changed my mind") storeC10 "w" baseWatcher (by decide) (by decide)

/-! ## C8 — billing advancement -/

theorem find?_updateFirst (p : α → Bool) (f : α → α)
    (hpf : ∀ a, p (f a) = p a) :
    ∀ l : List α, (updateFirst p f l).find? p = (l.find? p).map f := by
  intro l
  induction l with
  | nil => rfl
  | cons x xs ih =>
    rw [updateFirst]
    by_cases hx : p x = true
    · rw [if_pos hx]
      rw [List.find?_cons_of_pos _ (by rw [hpf]; exact hx),
        List.find?_cons_of_pos _ hx]
      rfl
    · rw [if_neg hx]
      rw [List.find?_cons_of_neg _ (by simpa using hx),
        List.find?_cons_of_neg _ (by simpa using hx)]
      exact ih

/-- Updating a watcher rewrites exactly the first record the lookup
returns. -/
theorem getWatcher_updateWatcher (s : Store) (id : String)
    (f : Watcher → Watcher) (hpf : ∀ a, (f a).id = a.id) (w : Watcher)
    (hw : getWatcher s id = some w) :
    getWatcher (updateWatcher s id f) id = some (f w) := by
  show (updateFirst (fun w2 => w2.id = id) f s.watchers).find? _ = _
  rw [find?_updateFirst _ _ (fun a => by simp [hpf a])]
  rw [show s.watchers.find? (fun w2 => decide (w2.id = id)) = some w
    from hw]
  rfl

/-- Incrementing an operator stat rewrites exactly the first record the
lookup returns. -/
theorem getOperator_incrementStat (s : Store) (opId : String)
    (f : OperatorStats → OperatorStats) (op : Operator)
    (hop : getOperator s opId = some op) :
    getOperator (incrementOperatorStat s opId f) opId =
      some { op with stats := f op.stats } := by
  show (updateFirst (fun o => o.id = opId) _ s.operators).find? _ = _
  rw [find?_updateFirst _ _ (fun a => by simp)]
  rw [show s.operators.find? (fun o => decide (o.id = opId)) = some op
    from hop]
  rfl

/-- What a successful due billing produces: a success BillingRecord
linked to the new Payment, the Payment split 80/20 over the type's
price and appended to the payments collection, the watcher's
nextBillingAt advanced by one cycle unit computed from the DUE date
`D` (weekly: exactly seven days; monthly: one calendar month with the
native day-overflow rollover) — `now` does not occur in the advanced
value — and the operator's totalEarned incremented by the operator
share. -/
def BillingSuccessSpec (now : JsDate) (s : Store) (id : String)
    (w : Watcher) (wt : WatcherType) (D : JsDate) : Prop :=
  ∃ rec pay nba s2,
    processBilling now true s id = .ok (.succeeded rec pay nba, s2) ∧
    rec.status = "success" ∧
    rec.paymentId = some pay.id ∧
    rec.billingDate = D ∧
    rec.processedAt = now ∧
    rec.amount = wt.price ∧
    pay.amount = wt.price ∧
    pay.operatorShare = wt.price * OPERATOR_SHARE ∧
    pay.platformShare = wt.price * PLATFORM_FEE ∧
    pay.watcherId = id ∧
    s2.payments = s.payments ++ [pay] ∧
    getWatcher s2 id = (getWatcher s id).map (fun w2 =>
      { w2 with nextBillingAt := nba
                billingHistory := w.billingHistory ++ [rec] }) ∧
    (w.billingCycle = "weekly" →
      nba = some (addDays D 7) ∧
      (addDays D 7).dayNum = D.dayNum + 7 ∧ (addDays D 7).ms = D.ms) ∧
    (w.billingCycle = "monthly" →
      nba = some (addOneMonth D) ∧ (addOneMonth D).ms = D.ms ∧
      (D.day ≤ daysInMonth (normMonthYear D.year (D.month + 1)).1
          (normMonthYear D.year (D.month + 1)).2 →
        monthIndex (addOneMonth D) = monthIndex D + 1 ∧
        (addOneMonth D).day = D.day)) ∧
    getOperator s2 w.operatorId =
      (getOperator s w.operatorId).map (fun o =>
        { o with stats := { o.stats with totalEarned :=
          o.stats.totalEarned + wt.price * OPERATOR_SHARE } })

/-- Claim C8: when `processBilling` succeeds for a recurring watcher
due on billing date `D`, it creates a Payment, appends a success
BillingRecord linked to it, advances nextBillingAt by one cycle unit
computed from `D` (weekly: exactly `D` plus 7 days; monthly: `D` plus
one calendar month under the native rollover) rather than from the
processing time, and increments the operator's totalEarned by the
operator share. -/
theorem c8_billing_advances_from_due_date (now : JsDate) (s : Store)
    (id : String) (w : Watcher) (wt : WatcherType)
    (D : JsDate) (hw : getWatcher s id = some w)
    (hcycle : w.billingCycle = "weekly" ∨ w.billingCycle = "monthly")
    (hnba : w.nextBillingAt = some D)
    (hdue : D.epochMs ≤ now.epochMs)
    (htype : getWatcherType s w.typeId = some wt)
    (hD : D.Valid) :
    BillingSuccessSpec now s id w wt D := by
  have hne1 : ¬ w.billingCycle = "one-time" := by
    rcases hcycle with h | h <;> simp [h]
  have hnotlt : ¬ now.epochMs < D.epochMs := by omega
  unfold BillingSuccessSpec
  simp only [processBilling, hw, hnba, htype, if_neg hne1,
    if_neg hnotlt, not_true, if_neg (by simp : ¬ ¬ True), ite_false,
    if_false]
  refine ⟨_, _, _, _, rfl, rfl, rfl, rfl, rfl, rfl, rfl, rfl, rfl,
    rfl, rfl, ?_, ?_, ?_, ?_⟩
  · refine getWatcher_updateWatcher _ id _ ?_ w hw
    intro a
    rfl
  · intro hwk
    rw [if_pos hwk]
    exact ⟨rfl, (addDays_dayNum D 7 hD).1, (addDays_dayNum D 7 hD).2⟩
  · intro hmo
    rw [if_neg (by simp [hmo]), if_pos hmo]
    refine ⟨rfl, rfl, ?_⟩
    intro hfit
    exact ⟨(addOneMonth_no_overflow D hD hfit).1,
      (addOneMonth_no_overflow D hD hfit).2.1⟩
  · refine find?_updateFirst _ _ ?_ s.operators
    intro a
    rfl

/-- January 31 plus one calendar month rolls to March 3 in a non-leap
year (the native `setMonth` semantics the billing engine inherits). -/
theorem addOneMonth_rollover_example :
    addOneMonth ⟨2, 0, 31, 0⟩ = ⟨2, 2, 3, 0⟩ := by decide

/-- A weekly watcher due on January 26 of model year 2. -/
def dueDateC8 : JsDate := ⟨2, 0, 26, 0⟩

def watcherWeekly : Watcher :=
  { baseWatcher with id := "w8", billingCycle := "weekly"
                     nextBillingAt := some dueDateC8 }

def storeC8 : Store := ⟨[opFix], [typeFix], [watcherWeekly], [], [], [], [], 7⟩

/-- Witness for C8: the weekly watcher billed on February 2 (one week
past the January 26 due date, crossing the month boundary). -/
theorem c8_billing_advances_from_due_date_witness :
    BillingSuccessSpec ⟨2, 1, 2, 0⟩ storeC8 "w8" watcherWeekly typeFix
      dueDateC8 :=
  c8_billing_advances_from_due_date ⟨2, 1, 2, 0⟩ storeC8 "w8"
    watcherWeekly typeFix dueDateC8 (by decide) (by decide)
    (by decide) (by decide) (by decide) (by decide)

/-! ## C9 — SLA violation and automatic refund -/

/-- Oracles: the executor exists but every check throws; webhooks are
irrelevant (nothing triggers). -/
def oraclesFailing : TickOracles :=
  ⟨fun _ => true, fun _ => .failure "boom", fun _ _ => false⟩

def watcherC9 : Watcher := { baseWatcher with id := "w9" }

/-- A creation payment of 0.01 for the watcher, well inside the
trailing 7-day window of the scenario. -/
def paymentC9 : Payment :=
  { id := "pay0", watcherId := "w9", operatorId := "op1"
    customerId := "c1", amount := 1 / 100
    operatorShare := 1 / 100 * OPERATOR_SHARE
    platformShare := 1 / 100 * PLATFORM_FEE, network := DEFAULT_NETWORK
    type := none, linkedViolationId := none, createdAt := day0 }

def storeC9 : Store :=
  ⟨[opFix], [typeFix], [watcherC9], [paymentC9], [], [], [], 50⟩

/-- Five consecutive failing check ticks, one minute apart. -/
def s9after1 : Store :=
  (cronCheckTick oraclesFailing ⟨2, 0, 1, 3600000⟩ storeC9).1
def s9after2 : Store :=
  (cronCheckTick oraclesFailing ⟨2, 0, 1, 3660000⟩ s9after1).1
def s9after3 : Store :=
  (cronCheckTick oraclesFailing ⟨2, 0, 1, 3720000⟩ s9after2).1
def s9after4 : Store :=
  (cronCheckTick oraclesFailing ⟨2, 0, 1, 3780000⟩ s9after3).1
def s9after5 : Store :=
  (cronCheckTick oraclesFailing ⟨2, 0, 1, 3840000⟩ s9after4).1

/-- Claim C9: five consecutive failed checks against an active watcher
produce exactly one SLAViolation — of type consecutive_failures with
threshold 5 and actual value equal to the consecutive-failure count —
none arising before the fifth failure; its refund amount is 50 percent
of the watcher's trailing-7-day payments (here 0.005 of the 0.01
creation payment), and since that is positive a negative credit
Payment is persisted whose 80/20 operator/platform shares sum to the
(negated) refund amount, linked to the violation, which is backfilled
with refundAmount and refundId. -/
theorem c9_consecutive_failures_violation_refund :
    s9after4.violations.length = 0 ∧
    (getWatcher s9after4 "w9").map (fun w => w.consecutiveFailures)
      = some 4 ∧
    s9after5.violations.length = 1 ∧
    s9after5.violations.map (fun v =>
        (v.violationType, v.threshold, v.actualValue, v.autoRefund))
      = [("consecutive_failures", (5 : Rat), (5 : Rat), true)] ∧
    s9after5.violations.map (fun v => (v.id, v.refundAmount, v.refundId))
      = [("id50", some (1 / 200 : Rat), some "id52")] ∧
    (1 / 200 : Rat) = paymentC9.amount * SLA_VIOLATION_REFUND_PERCENT ∧
    s9after5.payments.length = 2 ∧
    s9after5.payments[1]?.map (fun p =>
        (p.id, p.amount, p.operatorShare + p.platformShare, p.type,
          p.watcherId, p.linkedViolationId))
      = some ("id52", -(1 / 200 : Rat), -(1 / 200 : Rat),
          some "sla_violation_refund", "w9", some "id50") ∧
    (getWatcher s9after5 "w9").map (fun w =>
        (w.consecutiveFailures, w.status)) = some (5, "active") := by
  refine ⟨by decide, by decide, by decide, by decide, by decide,
    by decide, by decide, by decide, by decide⟩

/-! ## C2 — the idempotent creation flow -/

/-- Lazy customer creation leaves the watcher-type collection alone. -/
theorem getWatcherType_createCustomer (now : JsDate) (i t : String)
    (f : Nat) (s : Store) (id : String) :
    getWatcherType (storeCreateCustomer now i t f s).2 id =
      getWatcherType s id := rfl

/-- Lazy customer creation leaves the operator collection alone. -/
theorem getOperator_createCustomer (now : JsDate) (i t : String)
    (f : Nat) (s : Store) (id : String) :
    getOperator (storeCreateCustomer now i t f s).2 id =
      getOperator s id := rfl

/-- Appending a receipt carrying the digest to a store that had none
makes the lookup return exactly it. -/
theorem head?_filter_append (l1 : List Receipt) (r : Receipt)
    (h : String)
    (hl : (l1.filter (fun x => x.fulfillmentHash = h)).head? = none)
    (hr : r.fulfillmentHash = h) :
    (((l1 ++ [r]).filter (fun x => x.fulfillmentHash = h)).head?)
      = some r := by
  rw [List.filter_append]
  rw [List.head?_eq_none_iff] at hl
  rw [hl]
  simp [hr]

/-- Field of the lazily created customer record. -/
theorem storeCreateCustomer_fst_tier (now : JsDate) (i t : String)
    (f : Nat) (s : Store) :
    (storeCreateCustomer now i t f s).1.tier = t := rfl

/-- Field of the lazily created customer record. -/
theorem storeCreateCustomer_fst_freeWatchersUsed (now : JsDate)
    (i t : String) (f : Nat) (s : Store) :
    (storeCreateCustomer now i t f s).1.freeWatchersUsed = f := rfl

/-- The free-tier cap is one watcher, so a fresh count of zero is
strictly below it. -/
theorem free_cap_le_zero : (FREE_TIER_MAX_WATCHERS ≤ 0) = False := by
  simp [FREE_TIER_MAX_WATCHERS]

/-- Receipt lookup ignores type-stat bookkeeping. -/
theorem getReceiptByHash_incrementTypeStat (s : Store) (t : String)
    (f : TypeStats → TypeStats) (h : String) :
    getReceiptByHash (incrementTypeStat s t f) h
      = getReceiptByHash s h := rfl

/-- Receipt lookup ignores operator-stat bookkeeping. -/
theorem getReceiptByHash_incrementOperatorStat (s : Store) (o : String)
    (f : OperatorStats → OperatorStats) (h : String) :
    getReceiptByHash (incrementOperatorStat s o f) h
      = getReceiptByHash s h := rfl

/-- Receipt lookup ignores payment creation. -/
theorem getReceiptByHash_storeCreatePayment (now : JsDate)
    (inp : NewPaymentInput) (s : Store) (h : String) :
    getReceiptByHash (storeCreatePayment now inp s).2 h
      = getReceiptByHash s h := rfl

/-- Receipt lookup ignores watcher creation. -/
theorem getReceiptByHash_storeCreateWatcher (now : JsDate)
    (inp : NewWatcherInput) (s : Store) (h : String) :
    getReceiptByHash (storeCreateWatcher now inp s).2 h
      = getReceiptByHash s h := rfl

/-- Receipt lookup ignores lazy customer creation. -/
theorem getReceiptByHash_storeCreateCustomer (now : JsDate)
    (i t : String) (f : Nat) (s : Store) (h : String) :
    getReceiptByHash (storeCreateCustomer now i t f s).2 h
      = getReceiptByHash s h := rfl

/-- Creating a receipt carrying the digest in a store that had none
makes the digest lookup return exactly the new receipt. -/
theorem getReceiptByHash_storeCreateReceipt (now : JsDate)
    (inp : NewReceiptInput) (s : Store) (h : String)
    (hh : inp.fulfillmentHash = h)
    (hl : getReceiptByHash s h = none) :
    getReceiptByHash (storeCreateReceipt now inp s).2 h
      = some (storeCreateReceipt now inp s).1 := by
  have hrec : (storeCreateReceipt now inp s).2.receipts
      = s.receipts ++ [(storeCreateReceipt now inp s).1] := rfl
  unfold getReceiptByHash at hl ⊢
  rw [hrec]
  exact head?_filter_append s.receipts _ h hl hh

/-- The idempotent-replay summary always echoes the receipt watcher
id: the store lookup is by that very id. -/
theorem idemWatcherSummary_id (s : Store) (r : Receipt) :
    (idemWatcherSummary s r).id = r.watcherId := by
  unfold idemWatcherSummary
  cases hg : getWatcher s r.watcherId with
  | none => rfl
  | some w =>
    have hg2 : s.watchers.find? (fun x => x.id = r.watcherId) = some w :=
      hg
    have hp := List.find?_some (p := fun x => decide (x.id = r.watcherId))
      (a := w) hg2
    show w.id = r.watcherId
    exact of_decide_eq_true hp

/-- What the creation flow guarantees for a valid, not-yet-fulfilled
request: the first call creates (201, idempotent = false), appending
exactly one watcher, one payment and one receipt — the receipt keyed
by the fulfillment digest and naming the new watcher — and a second
call with the identical payload, at any later instant, replays
idempotently (200, idempotent = true): it returns the stored receipt
and its linked watcher id, creates no payment, and leaves the entire
store unchanged. -/
def IdempotentCreationSpec (sha : String → String)
    (execValidate : String → Json → Bool) (now now2 : JsDate)
    (req : CreateRequest) (s : Store) : Prop :=
  ∃ r1 s1,
    createSingleWatcher sha execValidate now req s = .ok (r1, s1) ∧
    r1.idempotent = false ∧
    postWatchersStatus
      (createSingleWatcher sha execValidate now req s) = 201 ∧
    s1.watchers.length = s.watchers.length + 1 ∧
    s1.payments.length = s.payments.length + 1 ∧
    s1.receipts = s.receipts ++ [r1.receipt] ∧
    r1.receipt.fulfillmentHash = generateFulfillmentHash sha
      ⟨req.typeId, req.config, req.webhook, req.customerId⟩ ∧
    r1.watcher.id = r1.receipt.watcherId ∧
    ∃ r2,
      createSingleWatcher sha execValidate now2 req s1 = .ok (r2, s1) ∧
      r2.idempotent = true ∧
      r2.receipt = r1.receipt ∧
      r2.watcher.id = r1.receipt.watcherId ∧
      r2.payment = none ∧
      postWatchersStatus
        (createSingleWatcher sha execValidate now2 req s1) = 200

/-- Claim C2: for every valid creation request whose digest has no
receipt yet, creation persists one watcher, one payment and one
receipt keyed by the digest and answers 201; an identical second
request finds the receipt and replays idempotently with 200, creating
nothing — so two identical calls yield exactly one watcher and one
payment and two responses referencing the same receipt digest. -/
theorem c2_creation_idempotent_replay (sha : String → String)
    (execValidate : String → Json → Bool) (now now2 : JsDate)
    (req : CreateRequest) (s : Store) (wtype : WatcherType)
    (op : Operator)
    (hv1 : req.pollingInterval ∈ POLLING_INTERVALS)
    (hv2 : req.ttl.any (fun t => decide (¬ t ∈ TTL_OPTIONS_HOURS))
      = false)
    (hv3 : ¬ MAX_RETRIES_LIMIT < req.retryPolicy.maxRetries)
    (hlook : getReceiptByHash s (generateFulfillmentHash sha
      ⟨req.typeId, req.config, req.webhook, req.customerId⟩) = none)
    (htype : getWatcherType s req.typeId = some wtype)
    (hcust : ∀ c, getCustomer s req.customerId = some c →
      ¬ (c.tier = "free" ∧
        FREE_TIER_MAX_WATCHERS ≤ c.freeWatchersUsed))
    (hopr : getOperator s wtype.operatorId = some op)
    (hweb : jsStartsWith req.webhook "http" = true)
    (hbc : req.billingCycle ∈ ["one-time", "weekly", "monthly"])
    (hexec : wtype.executorId.any
      (fun e => ! execValidate e req.config) = false) :
    IdempotentCreationSpec sha execValidate now now2 req s := by
  have hnot1 : ¬ ¬ req.pollingInterval ∈ POLLING_INTERVALS :=
    not_not_intro hv1
  have hnotb : ¬ ¬ req.billingCycle ∈ ["one-time", "weekly", "monthly"]
    := not_not_intro hbc
  unfold IdempotentCreationSpec
  rcases hc : getCustomer s req.customerId with _ | c
  · simp only [createSingleWatcher, if_neg hnot1, hv2,
      Bool.false_eq_true, if_false, if_neg hv3, hlook, hc,
      getWatcherType_createCustomer, htype,
      storeCreateCustomer_fst_tier,
      storeCreateCustomer_fst_freeWatchersUsed, free_cap_le_zero,
      eq_self_iff_true, true_and, and_false,
      getOperator_createCustomer, hopr, hweb, not_true, hexec,
      if_neg hnotb]
    refine ⟨_, _, rfl, rfl, rfl, ?_, ?_, rfl, rfl, rfl, ?_⟩
    · show (s.watchers ++ [_]).length = s.watchers.length + 1
      rw [List.length_append, List.length_singleton]
    · show (s.payments ++ [_]).length = s.payments.length + 1
      rw [List.length_append, List.length_singleton]
    · simp only [createSingleWatcher, if_neg hnot1, hv2,
        Bool.false_eq_true, if_false, if_neg hv3,
        getReceiptByHash_incrementTypeStat,
        getReceiptByHash_incrementOperatorStat,
        getReceiptByHash_storeCreateReceipt,
        getReceiptByHash_storeCreatePayment,
        getReceiptByHash_storeCreateWatcher,
        getReceiptByHash_storeCreateCustomer, hlook]
      exact ⟨_, rfl, rfl, rfl, idemWatcherSummary_id _ _, rfl, rfl⟩
  · simp only [createSingleWatcher, if_neg hnot1, hv2,
      Bool.false_eq_true, if_false, if_neg hv3, hlook, hc, htype,
      if_neg (hcust c hc), hopr, hweb, not_true, eq_self_iff_true,
      hexec, if_neg hnotb]
    refine ⟨_, _, rfl, rfl, rfl, ?_, ?_, rfl, rfl, rfl, ?_⟩
    · show (s.watchers ++ [_]).length = s.watchers.length + 1
      rw [List.length_append, List.length_singleton]
    · show (s.payments ++ [_]).length = s.payments.length + 1
      rw [List.length_append, List.length_singleton]
    · simp only [createSingleWatcher, if_neg hnot1, hv2,
        Bool.false_eq_true, if_false, if_neg hv3,
        getReceiptByHash_incrementTypeStat,
        getReceiptByHash_incrementOperatorStat,
        getReceiptByHash_storeCreateReceipt,
        getReceiptByHash_storeCreatePayment,
        getReceiptByHash_storeCreateWatcher,
        getReceiptByHash_storeCreateCustomer, hlook]
      exact ⟨_, rfl, rfl, rfl, idemWatcherSummary_id _ _, rfl, rfl⟩

/-- Closed instantiation of C2: the free-tier request `reqFree1`
against the seeded fixture store, with the identity digest primitive
and the all-accepting executor oracle, creating at midnight and
replaying at the same instant. -/
theorem c2_creation_idempotent_replay_witness :
    IdempotentCreationSpec shaId execOk day0 day0 reqFree1 fixStore :=
  c2_creation_idempotent_replay shaId execOk day0 day0 reqFree1
    fixStore typeFix opFix (by decide) (by decide) (by decide)
    (by decide) (by decide) (fun c h => Option.noConfusion h)
    (by decide) (by decide) (by decide) (by decide)

end X402
